import Mathlib

/-!
Shallow embedding of the `simple-bank-server` HTTP relay (TypeScript,
`src/index.ts` plus two further Plaid-only variants) in Lean 4.

The server is a stateless proxy: each handler makes up to three sequential
upstream HTTP calls and returns a JSON response.  We model:

* JSON values (`JVal`), with an extra `undefVal` constructor for the
  JavaScript `undefined` that appears when a missing field is read;
* upstream results as an oracle `World : Nat → Except HttpErr JVal`, the
  `k`-th upstream call a handler performs receiving the result `w k`;
* each handler as a pure function from its request data (and, where the code
  reads the clock, the invocation time) and the `World` to an `HRes`: the
  HTTP status, the JSON body, and the trace of upstream calls made, in order.

Times are UTC throughout (the deployment assumption for `Date` local-time
accessors; `toISOString` is UTC by definition).
-/

namespace SimpleBank

/-- JSON values as produced/consumed by the handlers.  `undefVal` models the
JavaScript `undefined` obtained when reading an absent object field; the
bodies the server itself assembles never contain it on the paths the claims
exercise. -/
inductive JVal where
  | null : JVal
  | undefVal : JVal
  | bool : Bool → JVal
  | num : Int → JVal
  | str : String → JVal
  | arr : List JVal → JVal
  | obj : List (String × JVal) → JVal
deriving Repr

mutual

def JVal.beq : JVal → JVal → Bool
  | .null, .null => true
  | .undefVal, .undefVal => true
  | .bool a, .bool b => a == b
  | .num a, .num b => a == b
  | .str a, .str b => a == b
  | .arr a, .arr b => JVal.beqList a b
  | .obj a, .obj b => JVal.beqFields a b
  | _, _ => false

def JVal.beqList : List JVal → List JVal → Bool
  | [], [] => true
  | x :: xs, y :: ys => JVal.beq x y && JVal.beqList xs ys
  | _, _ => false

def JVal.beqFields : List (String × JVal) → List (String × JVal) → Bool
  | [], [] => true
  | (k, v) :: xs, (l, w) :: ys => k == l && JVal.beq v w && JVal.beqFields xs ys
  | _, _ => false

end

/-- JavaScript truthiness of a JSON value (`if (x)`): `undefined`, `null`,
`false`, `0` and `""` are falsy; every object and array (even empty) is
truthy. -/
def jvalTruthy : JVal → Bool
  | .null => false
  | .undefVal => false
  | .bool b => b
  | .num n => !(n == 0)
  | .str s => !(s == "")
  | .arr _ => true
  | .obj _ => true

/-- Reading a field of a JSON value, as JavaScript property access: absent
fields (and access on non-objects) give `undefined`. -/
def jsGet (v : JVal) (k : String) : JVal :=
  match v with
  | .obj fs =>
    match fs.find? (fun p => p.1 == k) with
    | some p => p.2
    | none => .undefVal
  | _ => .undefVal

/-- JavaScript string coercion, as used by template literals such as
`Bearer ${token}`.  Only the `str` case is exercised by the claims. -/
def jsToStr : JVal → String
  | .str s => s
  | .num n => toString n
  | .bool b => if b then "true" else "false"
  | .null => "null"
  | .undefVal => "undefined"
  | .arr _ => ""
  | .obj _ => "[object Object]"

/-- `x || y` on JSON values: `x` if truthy, else `y`. -/
def jsOr (x y : JVal) : JVal := if jvalTruthy x then x else y

/-- Insert-or-overwrite a field, as assignment of a literal key after an
object spread: an existing key keeps its position and gets the new value, a
new key is appended. -/
def objUpsert (fs : List (String × JVal)) (k : String) (v : JVal) :
    List (String × JVal) :=
  if fs.any (fun p => p.1 == k) then
    fs.map (fun p => if p.1 == k then (k, v) else p)
  else fs ++ [(k, v)]

/-- `\x7b...base, k1: v1, k2: v2\x7d`: object spread followed by two literal
fields.  The handlers only ever spread upstream JSON objects; spreading a
non-object (a JavaScript corner the claims never reach) is modelled as just
the two literal fields. -/
def spreadTwo (base : JVal) (k1 : String) (v1 : JVal) (k2 : String)
    (v2 : JVal) : JVal :=
  match base with
  | .obj fs => .obj (objUpsert (objUpsert fs k1 v1) k2 v2)
  | _ => .obj [(k1, v1), (k2, v2)]

/-- An upstream HTTP response attached to an axios error: its status code and
its JSON body (`error.response.status`, `error.response.data`). -/
structure UpResponse where
  status : Nat
  data : JVal
deriving Repr

/-- An axios-style error: an optional upstream response (absent for network
failures) and the error message string. -/
structure HttpErr where
  response : Option UpResponse
  message : String
deriving Repr

/-- The upstream calls a handler can make, with the request data that the
code puts on the wire. -/
inductive UpCall where
  | tlGetAccounts (bearer : String)
  | tlGetTransactions (bearer accountId fromDate toDate : String)
  | tlToken (form : List (String × String))
  | plaidLinkTokenCreate (products countryCodes : List String)
      (webhook : Option String)
  | plaidPublicTokenExchange (publicToken : JVal)
  | plaidTransactionsGet (accessToken startDate endDate : String)
      (count offset : Nat)
deriving Repr

/-- What a handler produces: HTTP status, JSON body (at the serialized level:
`undefined`-valued fields that `res.json` would drop are simply not
included), and the ordered trace of upstream calls it made. -/
structure HRes where
  status : Nat
  body : JVal
  calls : List UpCall
deriving Repr

/-- The environment of upstream outcomes: the `k`-th upstream call a handler
makes receives `w k` — a JSON body on HTTP success, an `HttpErr` when axios
throws. -/
def World := Nat → Except HttpErr JVal

/-- JavaScript truthiness of an optional request string
(`refreshToken` / `access_token`): absent or empty means falsy. -/
def strTruthy : Option String → Bool
  | none => false
  | some s => !(s == "")

/-- `error.response?.status === 401`. -/
def is401 (e : HttpErr) : Bool :=
  match e.response with
  | some r => r.status == 401
  | none => false

/-- The form body of the TrueLayer refresh-token grant. -/
def refreshForm (rt : String) : List (String × String) :=
  [("grant_type", "refresh_token"), ("refresh_token", rt)]

/-- Fixed error body of the TrueLayer accounts handler. -/
def failAccountsBody : JVal := .obj [("error", .str "Failed to fetch accounts")]

/-- Fixed error body of the TrueLayer transactions handler. -/
def failTransactionsBody : JVal :=
  .obj [("error", .str "Failed to fetch transactions")]

/-- `getTruelayerAccounts` (refresh-and-retry variant, `src/index.ts`
lines 197–257): primary GET of `/data/v1/accounts` with the bearer token; on
a 401 with a (truthy) refresh token, one refresh-token grant and one retry
with the refreshed access token, the response being the retry data spread
with the new token pair; every other failure falls to the outer catch, a 500
with a fixed body. -/
def getTruelayerAccounts (accessToken : String) (refreshToken : Option String)
    (w : World) : HRes :=
  let c0 := UpCall.tlGetAccounts accessToken
  match w 0 with
  | .ok data => ⟨200, data, [c0]⟩
  | .error e =>
    if is401 e && strTruthy refreshToken then
      let rt := refreshToken.getD ""
      let c1 := UpCall.tlToken (refreshForm rt)
      match w 1 with
      | .ok rdata =>
        let newAccess := jsToStr (jsGet rdata "access_token")
        let c2 := UpCall.tlGetAccounts newAccess
        match w 2 with
        | .ok retryData =>
          ⟨200,
            spreadTwo retryData "newAccessToken" (jsGet rdata "access_token")
              "newRefreshToken" (jsGet rdata "refresh_token"),
            [c0, c1, c2]⟩
        | .error _ => ⟨500, failAccountsBody, [c0, c1, c2]⟩
      | .error _ => ⟨500, failAccountsBody, [c0, c1]⟩
    else ⟨500, failAccountsBody, [c0]⟩

/-! ### Calendar arithmetic (ECMAScript `Date`, UTC) -/

/-- Days since 1970-01-01 of a civil date (year, month 1–12, day; an
out-of-range day rolls over by exact arithmetic).  Standard
days-from-civil computation, matching the ECMAScript MakeDay for in-range
months. -/
def daysFromCivil (y m d : Int) : Int :=
  let yAdj := if m ≤ 2 then y - 1 else y
  let era := yAdj.fdiv 400
  let yoe := yAdj - era * 400
  let mp := if m > 2 then m - 3 else m + 9
  let doy := (153 * mp + 2).fdiv 5 + (d - 1)
  let doe := yoe * 365 + yoe.fdiv 4 - yoe.fdiv 100 + doy
  era * 146097 + doe - 719468

/-- Civil date (year, month 1–12, day 1–31) of a count of days since
1970-01-01.  Standard civil-from-days computation. -/
def civilFromDays (z0 : Int) : Int × Int × Int :=
  let z := z0 + 719468
  let era := z.fdiv 146097
  let doe := z - era * 146097
  let yoe := (doe - doe.fdiv 1460 + doe.fdiv 36524 - doe.fdiv 146096).fdiv 365
  let y := yoe + era * 400
  let doy := doe - (365 * yoe + yoe.fdiv 4 - yoe.fdiv 100)
  let mp := (5 * doy + 2).fdiv 153
  let d := doy - (153 * mp + 2).fdiv 5 + 1
  let m := if mp < 10 then mp + 3 else mp - 9
  (if m ≤ 2 then y + 1 else y, m, d)

/-- `Date.UTC(year, monthIndex, day, hours, minutes, seconds, ms)` as
milliseconds since the epoch: MakeDay folds an out-of-range month index into
the year, and every smaller field contributes linearly (so out-of-range
hours/minutes, including negative ones, roll over exactly). -/
def dateUTCms (y monIdx d h mi s ms : Int) : Int :=
  let ym := y * 12 + monIdx
  let yy := ym.fdiv 12
  let mm := ym - yy * 12
  (daysFromCivil yy (mm + 1) d) * 86400000
    + h * 3600000 + mi * 60000 + s * 1000 + ms

/-- The decimal digit character of `n % 10`. -/
def digitChar (n : Nat) : Char := Char.ofNat (48 + n % 10)

/-- Two-digit zero-padded rendering (the intended domain is `n < 100`). -/
def pad2 (n : Nat) : String := String.mk [digitChar (n / 10), digitChar n]

/-- Three-digit zero-padded rendering (intended domain `n < 1000`). -/
def pad3 (n : Nat) : String :=
  String.mk [digitChar (n / 100), digitChar (n / 10), digitChar n]

/-- Four-digit zero-padded rendering (intended domain `n < 10000`: the years
for which `toISOString` uses exactly four year digits). -/
def pad4 (n : Nat) : String :=
  String.mk [digitChar (n / 1000), digitChar (n / 100), digitChar (n / 10),
    digitChar n]

/-- `YYYY-MM-DD` rendering of a civil date. -/
def fmtYmd : Int × Int × Int → String
  | (y, m, d) => pad4 y.toNat ++ "-" ++ pad2 m.toNat ++ "-" ++ pad2 d.toNat

/-- The date part of `toISOString()` of an epoch-milliseconds instant:
`toISOString().split("T")[0]`. -/
def isoDate (ms : Int) : String := fmtYmd (civilFromDays (ms.fdiv 86400000))

/-- `toISOString()` of an epoch-milliseconds instant:
`YYYY-MM-DDTHH:mm:ss.sssZ` (years 0–9999). -/
def isoString (ms : Int) : String :=
  let day := ms.fdiv 86400000
  let rem := (ms - day * 86400000).toNat
  fmtYmd (civilFromDays day) ++ "T" ++ pad2 (rem / 3600000) ++ ":" ++
    pad2 (rem / 60000 % 60) ++ ":" ++ pad2 (rem / 1000 % 60) ++ "." ++
    pad3 (rem % 1000) ++ "Z"

/-- The UTC components of the invocation instant, as the handler reads them
through `getUTCFullYear` (year), `getUTCMonth` (0–11), `getUTCDate` (1–31),
`getUTCHours`, `getUTCMinutes`, `getUTCSeconds`, `getUTCMilliseconds`. -/
structure UTCTime where
  year : Int
  month : Int
  day : Int
  hour : Int
  minute : Int
  second : Int
  milli : Int
deriving Repr

/-- The `from` query value of the refresh-variant TrueLayer transactions
handler: `toISOString(Date.UTC(year, month, 1))` — start of the current
month, UTC midnight. -/
def tlFromString (now : UTCTime) : String :=
  isoString (dateUTCms now.year now.month 1 0 0 0 0)

/-- The `to` query value of that handler.  The source passes
`now.getUTCHours() - 1` as the **minutes** argument of `Date.UTC`
(`src/index.ts` line 277), discarding the invocation minute. -/
def tlToString (now : UTCTime) : String :=
  isoString (dateUTCms now.year now.month now.day now.hour (now.hour - 1)
    now.second now.milli)

/-- ISO rendering of the invocation instant itself, for comparison with the
handler's `to` value. -/
def isoOfTime (now : UTCTime) : String :=
  isoString (dateUTCms now.year now.month now.day now.hour now.minute
    now.second now.milli)

/-- `getTruelayerTransactions` (refresh-and-retry variant, `src/index.ts`
lines 260–353): computes the `from`/`to` range once, performs the primary
GET of the account's transactions, and applies the same 401-plus-refresh
policy as the accounts handler, the retry reusing the same `from`/`to`. -/
def getTruelayerTransactions (accessToken : String)
    (refreshToken : Option String) (accountId : String) (now : UTCTime)
    (w : World) : HRes :=
  let fromD := tlFromString now
  let toD := tlToString now
  let c0 := UpCall.tlGetTransactions accessToken accountId fromD toD
  match w 0 with
  | .ok data => ⟨200, data, [c0]⟩
  | .error e =>
    if is401 e && strTruthy refreshToken then
      let rt := refreshToken.getD ""
      let c1 := UpCall.tlToken (refreshForm rt)
      match w 1 with
      | .ok rdata =>
        let newAccess := jsToStr (jsGet rdata "access_token")
        let c2 := UpCall.tlGetTransactions newAccess accountId fromD toD
        match w 2 with
        | .ok retryData =>
          ⟨200,
            spreadTwo retryData "newAccessToken" (jsGet rdata "access_token")
              "newRefreshToken" (jsGet rdata "refresh_token"),
            [c0, c1, c2]⟩
        | .error _ => ⟨500, failTransactionsBody, [c0, c1, c2]⟩
      | .error _ => ⟨500, failTransactionsBody, [c0, c1]⟩
    else ⟨500, failTransactionsBody, [c0]⟩

/-- Split a character list on a separator character; the empty input yields
one empty segment, as JavaScript's `split`. -/
def splitOnChar (sep : Char) : List Char → List (List Char)
  | [] => [[]]
  | c :: rest =>
    let r := splitOnChar sep rest
    if c == sep then [] :: r
    else (c :: r.headD []) :: r.tail

/-- JavaScript's `String.prototype.split` with a one-character separator:
`"".split(",")` is `[""]`, never the empty list. -/
def jsSplit (sep : Char) (s : String) : List String :=
  (splitOnChar sep s.data).map String.mk

/-! ### Remaining handlers -/

/-- TrueLayer configuration from the environment. -/
structure TLEnv where
  clientId : String
  clientSecret : String
  redirectUri : String
deriving Repr

/-- `error.response?.data || error.message`. -/
def detailsOf (e : HttpErr) : JVal :=
  match e.response with
  | some r => jsOr r.data (.str e.message)
  | none => .str e.message

/-- `exchangeTruelayerCode` (`src/index.ts` lines 103–148): posts the
authorization-code grant to the token endpoint and returns the upstream
payload as-is; on failure a 500 with the upstream details. -/
def exchangeTruelayerCode (code : String) (env : TLEnv) (w : World) : HRes :=
  let c0 := UpCall.tlToken [("grant_type", "authorization_code"),
    ("redirect_uri", env.redirectUri), ("code", code)]
  match w 0 with
  | .ok data => ⟨200, data, [c0]⟩
  | .error e =>
    ⟨500, .obj [("error", .str "Failed to exchange authorization code"),
      ("details", detailsOf e)], [c0]⟩

/-- `exchangePublicToken` (Plaid; `src/unnamed/part_001` lines 68–79):
single pass-through call to `itemPublicTokenExchange`. -/
def exchangePublicToken (publicToken : JVal) (w : World) : HRes :=
  let c0 := UpCall.plaidPublicTokenExchange publicToken
  match w 0 with
  | .ok data => ⟨200, data, [c0]⟩
  | .error _ =>
    ⟨500, .obj [("error", .str "Failed to exchange public token")], [c0]⟩

/-- Error body of `createLinkToken`'s catch:
`error`, `details: error.response?.data || error.message`, and `status:
error.response?.status`, the `status` field being dropped at serialization
when there is no upstream response. -/
def linkTokenFailBody (e : HttpErr) : JVal :=
  match e.response with
  | some r => .obj [("error", .str "Failed to create link token"),
      ("details", jsOr r.data (.str e.message)),
      ("status", .num (Int.ofNat r.status))]
  | none => .obj [("error", .str "Failed to create link token"),
      ("details", .str e.message)]

/-- `createLinkToken` (`src/index.ts` lines 399–464): splits
`PLAID_COUNTRY_CODES` on a comma (JavaScript `split`: the empty string
yields `[""]`), throws if the resulting list is empty — the thrown error is
caught by the handler's own catch, a 500 with the message as details and no
upstream call — and otherwise calls `linkTokenCreate` with exactly those
codes. -/
def createLinkToken (countryCodesStr productsStr : String)
    (webhook : Option String) (w : World) : HRes :=
  let countryCodes := jsSplit ',' countryCodesStr
  if countryCodes.length == 0 then
    ⟨500, .obj [("error", .str "Failed to create link token"),
      ("details", .str "At least one country code must be specified")], []⟩
  else
    let c0 := UpCall.plaidLinkTokenCreate (jsSplit ',' productsStr)
      countryCodes webhook
    match w 0 with
    | .ok data => ⟨200, data, [c0]⟩
    | .error e => ⟨500, linkTokenFailBody e, [c0]⟩

/-- `createLinkToken`, the stricter variant (`src/unnamed/part_000` lines
43–110): additionally requires `"GB"` among the country codes. -/
def createLinkTokenGB (countryCodesStr productsStr : String)
    (webhook : Option String) (w : World) : HRes :=
  let countryCodes := jsSplit ',' countryCodesStr
  if countryCodes.length == 0 || !(countryCodes.contains "GB") then
    ⟨500, .obj [("error", .str "Failed to create link token"),
      ("details",
        .str "GB must be included in country codes for production environment")],
      []⟩
  else
    let c0 := UpCall.plaidLinkTokenCreate (jsSplit ',' productsStr)
      countryCodes webhook
    match w 0 with
    | .ok data => ⟨200, data, [c0]⟩
    | .error e => ⟨500, linkTokenFailBody e, [c0]⟩

/-- `getTransactions` (Plaid; `src/unnamed/part_001` lines 81–130, identical
in `src/src/index.ts` lines 479–528): 400 without a truthy `access_token`
query value and no upstream call; otherwise a `transactionsGet` over the
window from 30 days before now to now (`setDate(getDate() - 30)` — exactly
30 days of milliseconds under the UTC deployment assumption), both dates
rendered as `toISOString().split("T")[0]`, requesting 100 transactions at
offset 0; on success only the `transactions` array is returned; an upstream
error carrying a truthy body is passed through with the upstream status (or
500 when that status is 0), any other error becomes a generic 500 with a
`message` field. -/
def getTransactions (accessToken : Option String) (nowMs : Int)
    (w : World) : HRes :=
  if !(strTruthy accessToken) then
    ⟨400, .obj [("error", .str "Access token is required")], []⟩
  else
    let startD := isoDate (nowMs - 30 * 86400000)
    let endD := isoDate nowMs
    let c0 := UpCall.plaidTransactionsGet (accessToken.getD "") startD endD
      100 0
    match w 0 with
    | .ok data => ⟨200, jsOr (jsGet data "transactions") (.arr []), [c0]⟩
    | .error e =>
      match e.response with
      | some r =>
        if jvalTruthy r.data then
          ⟨if r.status == 0 then 500 else r.status, r.data, [c0]⟩
        else
          ⟨500, .obj [("error", .str "Failed to fetch transactions"),
            ("message", .str e.message)], [c0]⟩
      | none =>
        ⟨500, .obj [("error", .str "Failed to fetch transactions"),
          ("message", .str e.message)], [c0]⟩

/-! ### `URLSearchParams` serialization and parsing

`createTruelayerAuthLink` builds its authorization URL with
`new URLSearchParams(authParams).toString()`.  We embed the
`application/x-www-form-urlencoded` serializer for the ASCII range (all the
inputs the claims concern are ASCII; beyond ASCII the real serializer
percent-encodes UTF-8 bytes instead), together with the matching parser, so
that "the query parameters embedded in the URL" can be stated by parsing the
query string back. -/

/-- The characters the serializer keeps verbatim: alphanumerics and
`*`, `-`, `.`, `_`. -/
def urlUnreserved (c : Char) : Bool :=
  c.isAlphanum || c == '*' || c == '-' || c == '.' || c == '_'

/-- Uppercase hexadecimal digit (intended domain `n < 16`). -/
def hexDigitChar (n : Nat) : Char :=
  if n < 10 then Char.ofNat (48 + n) else Char.ofNat (55 + n)

/-- Hexadecimal digit test (both cases, as the parser accepts). -/
def isHexChar (c : Char) : Bool :=
  c.isDigit || ('A' ≤ c && c ≤ 'F') || ('a' ≤ c && c ≤ 'f')

/-- Value of a hexadecimal digit character. -/
def hexVal (c : Char) : Nat :=
  if c.isDigit then c.toNat - 48
  else if 'A' ≤ c && c ≤ 'F' then c.toNat - 55
  else if 'a' ≤ c && c ≤ 'f' then c.toNat - 87
  else 0

/-- Form-urlencoding of one ASCII character: unreserved characters pass, a
space becomes `+`, everything else is percent-encoded. -/
def encodeChar (c : Char) : List Char :=
  if urlUnreserved c then [c]
  else if c == ' ' then ['+']
  else ['%', hexDigitChar (c.toNat / 16), hexDigitChar (c.toNat % 16)]

/-- Form-urlencoding of a character list. -/
def encodeList : List Char → List Char
  | [] => []
  | c :: cs => encodeChar c ++ encodeList cs

/-- Form-urlencoding of a string. -/
def encodeStr (s : String) : String := String.mk (encodeList s.data)

/-- `URLSearchParams.toString()`: the pairs, each as
`encoded-key=encoded-value`, joined with `&`. -/
def serializeQuery : List (String × String) → String
  | [] => ""
  | [p] => encodeStr p.1 ++ "=" ++ encodeStr p.2
  | p :: ps => encodeStr p.1 ++ "=" ++ encodeStr p.2 ++ "&" ++ serializeQuery ps

/-- Percent-decoding of a form-urlencoded token: `+` is a space, `%` followed
by two hexadecimal digits is the character with that code, anything else
passes through. -/
def decodeChars : List Char → List Char
  | [] => []
  | '+' :: rest => ' ' :: decodeChars rest
  | '%' :: h :: l :: rest2 =>
    if isHexChar h && isHexChar l then
      Char.ofNat (16 * hexVal h + hexVal l) :: decodeChars rest2
    else '%' :: decodeChars (h :: l :: rest2)
  | c :: rest => c :: decodeChars rest

/-- Split at the first occurrence of a character: the part before it, and
what follows it (the whole input and `[]` when it is absent). -/
def takeUntil (c : Char) : List Char → List Char × List Char
  | [] => ([], [])
  | x :: xs =>
    if x == c then ([], xs)
    else (x :: (takeUntil c xs).1, (takeUntil c xs).2)

/-- Split a query string into its `&`-separated segments. -/
def splitSegs : List Char → List (List Char) := splitOnChar '&'

/-- One `key=value` segment, decoded (a segment without `=` parses as a key
with an empty value). -/
def parsePair (seg : List Char) : String × String :=
  (String.mk (decodeChars (takeUntil '=' seg).1),
   String.mk (decodeChars (takeUntil '=' seg).2))

/-- `URLSearchParams` parsing of a query string (empty input: no pairs). -/
def parseQuery (cs : List Char) : List (String × String) :=
  match cs with
  | [] => []
  | _ => (splitSegs cs).map parsePair

/-- An ASCII character. -/
def asciiChar (c : Char) : Bool := c.toNat < 128

/-- An ASCII string. -/
def asciiStr (s : String) : Bool := s.data.all asciiChar

/-! ### The TrueLayer auth-link handler -/

/-- `TRUELAYER_AUTH_URL`: sandbox unless `TRUELAYER_ENV` is `production`. -/
def truelayerAuthBase (production : Bool) : String :=
  if production then "https://auth.truelayer.com"
  else "https://auth.truelayer-sandbox.com"

/-- The ordered query parameters of the authorization URL
(`src/index.ts` lines 60–68). -/
def authParams (env : TLEnv) (state nonce : String) :
    List (String × String) :=
  [("response_type", "code"), ("client_id", env.clientId),
   ("scope", "info accounts balance cards transactions"),
   ("redirect_uri", env.redirectUri),
   ("providers", "uk-ob-all uk-oauth-all"),
   ("state", state), ("nonce", nonce)]

/-- The JSON response of `createTruelayerAuthLink`. -/
structure AuthLinkRes where
  authUrl : String
  state : String
  nonce : String
deriving Repr

/-- `createTruelayerAuthLink` (`src/index.ts` lines 27–100), on the success
path (the four environment variables set): the two
`Math.random().toString(36).substring(2, 15)` draws are passed in as `state`
and `nonce`; the handler assembles the authorization URL from the serialized
parameters and responds with the URL, state and nonce. -/
def createTruelayerAuthLink (production : Bool) (env : TLEnv)
    (state nonce : String) : AuthLinkRes :=
  ⟨truelayerAuthBase production ++ "/?" ++
      serializeQuery (authParams env state nonce),
    state, nonce⟩

/-! ## Theorems -/

/-- Claim C7: a GET of `/api/transactions` whose query string has no
`access_token` parameter is answered with status 400 and body
`error: "Access token is required"`, and no upstream call is made. -/
theorem plaid_transactions_missing_token (nowMs : Int) (w : World) :
    getTransactions none nowMs w =
      ⟨400, .obj [("error", .str "Access token is required")], []⟩ := rfl

/-- Claim C8: whenever the upstream public-token exchange succeeds,
`exchangePublicToken` responds 200 with the upstream payload unmodified — in
particular the same `access_token` and `item_id` fields — after exactly the
one pass-through call. -/
theorem exchange_public_token_passthrough (pt : JVal) (w : World) (d : JVal)
    (h : w 0 = .ok d) :
    (exchangePublicToken pt w).status = 200 ∧
    (exchangePublicToken pt w).body = d ∧
    jsGet (exchangePublicToken pt w).body "access_token" =
      jsGet d "access_token" ∧
    jsGet (exchangePublicToken pt w).body "item_id" = jsGet d "item_id" ∧
    (exchangePublicToken pt w).calls = [.plaidPublicTokenExchange pt] := by
  simp [exchangePublicToken, h]

/-- Witness for C8 at a concrete upstream payload. -/
theorem exchange_public_token_passthrough_witness :
    (exchangePublicToken (.str "public-tok")
        (fun _ => .ok (.obj [("access_token", .str "access-sandbox-1"),
          ("item_id", .str "item-1"), ("request_id", .str "req-1")]))).status
      = 200 ∧
    (exchangePublicToken (.str "public-tok")
        (fun _ => .ok (.obj [("access_token", .str "access-sandbox-1"),
          ("item_id", .str "item-1"), ("request_id", .str "req-1")]))).body =
      .obj [("access_token", .str "access-sandbox-1"),
        ("item_id", .str "item-1"), ("request_id", .str "req-1")] := by
  have h := exchange_public_token_passthrough (.str "public-tok")
    (fun _ => .ok (.obj [("access_token", .str "access-sandbox-1"),
      ("item_id", .str "item-1"), ("request_id", .str "req-1")]))
    (.obj [("access_token", .str "access-sandbox-1"),
      ("item_id", .str "item-1"), ("request_id", .str "req-1")]) rfl
  exact ⟨h.1, h.2.1⟩

/-- Claim C9: whenever the upstream token call succeeds, POST
`/api/truelayer/exchange` responds with status 200 and the upstream
token-endpoint payload verbatim (after the single authorization-code grant
call). -/
theorem truelayer_exchange_passthrough (code : String) (env : TLEnv)
    (w : World) (d : JVal) (h : w 0 = .ok d) :
    exchangeTruelayerCode code env w =
      ⟨200, d, [.tlToken [("grant_type", "authorization_code"),
        ("redirect_uri", env.redirectUri), ("code", code)]]⟩ := by
  simp [exchangeTruelayerCode, h]

/-- Witness for C9: the end-to-end scenario of the specification, with
code `"abc"` and the provider returning
`access_token: "X", refresh_token: "Y"`. -/
theorem truelayer_exchange_passthrough_witness :
    exchangeTruelayerCode "abc" ⟨"cid", "sec", "https://cb.example"⟩
        (fun _ => .ok (.obj [("access_token", .str "X"),
          ("refresh_token", .str "Y")])) =
      ⟨200, .obj [("access_token", .str "X"), ("refresh_token", .str "Y")],
        [.tlToken [("grant_type", "authorization_code"),
          ("redirect_uri", "https://cb.example"), ("code", "abc")]]⟩ :=
  truelayer_exchange_passthrough "abc" ⟨"cid", "sec", "https://cb.example"⟩ _ _
    rfl

/-- Claim C1: for both TrueLayer data handlers, when the primary call fails
with HTTP 401 and a (non-empty) refresh token was supplied, exactly one
refresh call and exactly one retried call follow — the full trace is
primary, refresh grant, retry — the retried call carries the access token
the refresh returned, and the response is the retry data spread with the new
access and refresh tokens. -/
theorem truelayer_refresh_retry (a rt acct : String) (now : UTCTime)
    (w : World) (e : HttpErr) (rdata d : JVal) (a2 r2 : String)
    (h0 : w 0 = .error e) (h401 : is401 e = true) (hrt : rt ≠ "")
    (h1 : w 1 = .ok rdata)
    (ha : jsGet rdata "access_token" = .str a2)
    (hr : jsGet rdata "refresh_token" = .str r2)
    (h2 : w 2 = .ok d) :
    getTruelayerAccounts a (some rt) w =
      ⟨200, spreadTwo d "newAccessToken" (.str a2) "newRefreshToken" (.str r2),
        [.tlGetAccounts a, .tlToken (refreshForm rt), .tlGetAccounts a2]⟩ ∧
    getTruelayerTransactions a (some rt) acct now w =
      ⟨200, spreadTwo d "newAccessToken" (.str a2) "newRefreshToken" (.str r2),
        [.tlGetTransactions a acct (tlFromString now) (tlToString now),
         .tlToken (refreshForm rt),
         .tlGetTransactions a2 acct (tlFromString now) (tlToString now)]⟩ := by
  constructor <;>
    simp [getTruelayerAccounts, getTruelayerTransactions, h0, h401, h1, h2,
      ha, hr, hrt, strTruthy, jsToStr]

/-- Witness for C1 at a concrete 401-then-refresh-then-retry world. -/
theorem truelayer_refresh_retry_witness :
    getTruelayerAccounts "A1" (some "R1")
        (fun n => if n = 0 then
            .error ⟨some ⟨401, .obj [("error", .str "invalid_token")]⟩,
              "Request failed with status code 401"⟩
          else if n = 1 then
            .ok (.obj [("access_token", .str "A2"),
              ("refresh_token", .str "R2")])
          else .ok (.obj [("results", .arr [.str "acc"])])) =
      ⟨200, spreadTwo (.obj [("results", .arr [.str "acc"])])
          "newAccessToken" (.str "A2") "newRefreshToken" (.str "R2"),
        [.tlGetAccounts "A1", .tlToken (refreshForm "R1"),
         .tlGetAccounts "A2"]⟩ :=
  (truelayer_refresh_retry "A1" "R1" "acct-1" ⟨2024, 0, 15, 10, 45, 30, 500⟩
    (fun n => if n = 0 then
        .error ⟨some ⟨401, .obj [("error", .str "invalid_token")]⟩,
          "Request failed with status code 401"⟩
      else if n = 1 then
        .ok (.obj [("access_token", .str "A2"), ("refresh_token", .str "R2")])
      else .ok (.obj [("results", .arr [.str "acc"])]))
    ⟨some ⟨401, .obj [("error", .str "invalid_token")]⟩,
      "Request failed with status code 401"⟩
    (.obj [("access_token", .str "A2"), ("refresh_token", .str "R2")])
    (.obj [("results", .arr [.str "acc"])])
    "A2" "R2" rfl rfl (by decide) rfl rfl rfl rfl).1

/-- Claim C2: for both TrueLayer data handlers, any upstream failure of the
primary call that is not a 401 with a (truthy) refresh token ends in the
outer error path — a 500 with the handler's fixed body — after that single
upstream call; and when the primary call succeeds, it is likewise the only
upstream call, so a refresh is only ever issued after a 401 with a refresh
token present. -/
theorem truelayer_no_refresh_without_401 (a acct : String)
    (rto : Option String) (now : UTCTime) (w : World) (e : HttpErr)
    (h0 : w 0 = .error e)
    (hno : ¬(is401 e = true ∧ strTruthy rto = true)) :
    getTruelayerAccounts a rto w =
      ⟨500, failAccountsBody, [.tlGetAccounts a]⟩ ∧
    getTruelayerTransactions a rto acct now w =
      ⟨500, failTransactionsBody,
        [.tlGetTransactions a acct (tlFromString now) (tlToString now)]⟩ ∧
    (∀ w2 : World, ∀ v : JVal, w2 0 = .ok v →
      (getTruelayerAccounts a rto w2).calls = [.tlGetAccounts a] ∧
      (getTruelayerTransactions a rto acct now w2).calls =
        [.tlGetTransactions a acct (tlFromString now) (tlToString now)]) := by
  have hb : (is401 e && strTruthy rto) = false := by
    cases hx : is401 e <;> cases hy : strTruthy rto <;> simp_all
  refine ⟨?_, ?_, ?_⟩
  · simp [getTruelayerAccounts, h0, hb]
  · simp [getTruelayerTransactions, h0, hb]
  · intro w2 v hv
    exact ⟨by simp [getTruelayerAccounts, hv],
      by simp [getTruelayerTransactions, hv]⟩

/-- Witness for C2: a 403 upstream failure with a refresh token present
triggers no refresh. -/
theorem truelayer_no_refresh_without_401_witness :
    getTruelayerAccounts "A1" (some "R1")
        (fun _ => .error ⟨some ⟨403, .obj [("error", .str "forbidden")]⟩,
          "Request failed with status code 403"⟩) =
      ⟨500, failAccountsBody, [.tlGetAccounts "A1"]⟩ :=
  (truelayer_no_refresh_without_401 "A1" "acct-1" (some "R1")
    ⟨2024, 0, 15, 10, 45, 30, 500⟩
    (fun _ => .error ⟨some ⟨403, .obj [("error", .str "forbidden")]⟩,
      "Request failed with status code 403"⟩)
    ⟨some ⟨403, .obj [("error", .str "forbidden")]⟩,
      "Request failed with status code 403"⟩ rfl (by decide)).1

/-- Claim C3 (the code bug it exposes): with `PLAID_COUNTRY_CODES` empty,
JavaScript's `split(",")` produces `[""]` — a one-element list — so the
handler's emptiness check can never fire: instead of failing with a
configuration error and making no upstream call, `createLinkToken` calls
`linkTokenCreate` with `country_codes = [""]`. -/
theorem create_link_token_empty_env_bug :
    jsSplit ',' "" = [""] ∧
    createLinkToken "" "transactions" none
        (fun _ => .ok (.obj [("link_token", .str "lt"),
          ("expiration", .str "exp"), ("request_id", .str "rid")])) =
      ⟨200, .obj [("link_token", .str "lt"), ("expiration", .str "exp"),
          ("request_id", .str "rid")],
        [.plaidLinkTokenCreate ["transactions"] [""] none]⟩ :=
  ⟨rfl, rfl⟩

/-- Claim C5 (the code bug it exposes): the TrueLayer transactions handler
passes `getUTCHours() - 1` as the **minutes** argument of `Date.UTC`, so its
`to` bound is not the invocation time: invoked at 2024-01-15T10:45:30.500Z
it requests `to = 2024-01-15T10:09:30.500Z` (the `from` bound is the start
of the current UTC month, as claimed). -/
theorem truelayer_transactions_to_bug :
    tlFromString ⟨2024, 0, 15, 10, 45, 30, 500⟩ = "2024-01-01T00:00:00.000Z" ∧
    isoOfTime ⟨2024, 0, 15, 10, 45, 30, 500⟩ = "2024-01-15T10:45:30.500Z" ∧
    tlToString ⟨2024, 0, 15, 10, 45, 30, 500⟩ = "2024-01-15T10:09:30.500Z" ∧
    tlToString ⟨2024, 0, 15, 10, 45, 30, 500⟩ ≠
      isoOfTime ⟨2024, 0, 15, 10, 45, 30, 500⟩ ∧
    (getTruelayerTransactions "A1" none "acct-1"
        ⟨2024, 0, 15, 10, 45, 30, 500⟩
        (fun _ => .ok (.obj [("results", .arr [])]))).calls =
      [.tlGetTransactions "A1" "acct-1" "2024-01-01T00:00:00.000Z"
        "2024-01-15T10:09:30.500Z"] :=
  ⟨rfl, rfl, rfl, by decide, rfl⟩

/-- The Plaid transactions handler makes exactly one upstream call, with the
30-day window, whenever the access token is truthy. -/
theorem getTransactions_calls (tok : String) (nowMs : Int) (w : World)
    (htok : tok ≠ "") :
    (getTransactions (some tok) nowMs w).calls =
      [.plaidTransactionsGet tok (isoDate (nowMs - 30 * 86400000))
        (isoDate nowMs) 100 0] := by
  rcases h0 : w 0 with e | d
  · rcases hr : e.response with _ | r
    · simp [getTransactions, h0, hr, htok, strTruthy]
    · cases ht : jvalTruthy r.data <;>
        simp [getTransactions, h0, hr, ht, htok, strTruthy]
  · simp [getTransactions, h0, htok, strTruthy]

/-- A `YYYY-MM-DD` rendering is always ten characters. -/
theorem fmtYmd_length (c : Int × Int × Int) : (fmtYmd c).length = 10 := by
  rcases c with ⟨y, m, d⟩
  simp [fmtYmd, pad4, pad2, String.length_append, String.length_mk]
  rfl

/-- Subtracting 30 days of milliseconds moves the epoch-day number down by
exactly 30, whatever the time of day. -/
theorem epochDay_sub_30 (nowMs : Int) :
    (nowMs - 2592000000).fdiv 86400000 = nowMs.fdiv 86400000 - 30 := by
  rw [Int.fdiv_eq_ediv _ (by decide), Int.fdiv_eq_ediv _ (by decide)]
  omega

/-- Claim C6: for every invocation time (and a truthy access token), the
Plaid transactions handler issues one upstream request whose `start_date`
renders the civil date exactly 30 days before the `end_date`'s epoch day,
the `end_date` being the invocation date, both as ten-character
`YYYY-MM-DD` strings. -/
theorem plaid_transactions_window (tok : String) (nowMs : Int) (w : World)
    (htok : tok ≠ "") :
    (getTransactions (some tok) nowMs w).calls =
      [.plaidTransactionsGet tok
        (fmtYmd (civilFromDays (nowMs.fdiv 86400000 - 30)))
        (fmtYmd (civilFromDays (nowMs.fdiv 86400000))) 100 0] ∧
    isoDate (nowMs - 30 * 86400000) =
      fmtYmd (civilFromDays (nowMs.fdiv 86400000 - 30)) ∧
    (isoDate (nowMs - 30 * 86400000)).length = 10 ∧
    (isoDate nowMs).length = 10 := by
  have hkey : isoDate (nowMs - 30 * 86400000) =
      fmtYmd (civilFromDays (nowMs.fdiv 86400000 - 30)) := by
    simp [isoDate, epochDay_sub_30]
  refine ⟨?_, hkey, ?_, ?_⟩
  · rw [getTransactions_calls tok nowMs w htok, hkey]; rfl
  · exact hkey ▸ fmtYmd_length _
  · exact fmtYmd_length _

/-- Witness for C6 at 2025-01-15T00:53:20Z: the window is 2024-12-16 to
2025-01-15. -/
theorem plaid_transactions_window_witness :
    (getTransactions (some "tok") 1736900000000
        (fun _ => .ok (.obj [("transactions", .arr [])]))).calls =
      [.plaidTransactionsGet "tok" "2024-12-16" "2025-01-15" 100 0] := by
  have h := plaid_transactions_window "tok" 1736900000000
    (fun _ => .ok (.obj [("transactions", .arr [])])) (by decide)
  exact h.1.trans (by rfl)

/-- Counterexample to claim C4 as stated: the TrueLayer accounts handler,
given an upstream failure carrying status 403 and a JSON body, responds 500
with its fixed body instead of the upstream status and body. -/
theorem upstream_passthrough_counterexample :
    (getTruelayerAccounts "A1" none
        (fun _ => .error ⟨some ⟨403, .obj [("code", .str "forbidden")]⟩,
          "Request failed with status code 403"⟩)).status = 500 ∧
    (getTruelayerAccounts "A1" none
        (fun _ => .error ⟨some ⟨403, .obj [("code", .str "forbidden")]⟩,
          "Request failed with status code 403"⟩)).status ≠ 403 ∧
    (getTruelayerAccounts "A1" none
        (fun _ => .error ⟨some ⟨403, .obj [("code", .str "forbidden")]⟩,
          "Request failed with status code 403"⟩)).body = failAccountsBody :=
  ⟨rfl, by decide, rfl⟩

/-- Every outcome of the TrueLayer accounts handler is either a 200 or the
fixed 500 body: no upstream status or body is ever passed through. -/
theorem tlAccounts_outcome (a : String) (rto : Option String) (w : World) :
    (getTruelayerAccounts a rto w).status = 200 ∨
      ((getTruelayerAccounts a rto w).status = 500 ∧
        (getTruelayerAccounts a rto w).body = failAccountsBody) := by
  rcases h0 : w 0 with e | d
  · cases hb : (is401 e && strTruthy rto)
    · simp [getTruelayerAccounts, h0, hb]
    · rcases h1 : w 1 with e1 | r
      · simp [getTruelayerAccounts, h0, hb, h1]
      · rcases h2 : w 2 with e2 | d2 <;>
          simp [getTruelayerAccounts, h0, hb, h1, h2]
  · simp [getTruelayerAccounts, h0]

/-- Every outcome of the TrueLayer transactions handler is either a 200 or
the fixed 500 body. -/
theorem tlTransactions_outcome (a acct : String) (rto : Option String)
    (now : UTCTime) (w : World) :
    (getTruelayerTransactions a rto acct now w).status = 200 ∨
      ((getTruelayerTransactions a rto acct now w).status = 500 ∧
        (getTruelayerTransactions a rto acct now w).body =
          failTransactionsBody) := by
  rcases h0 : w 0 with e | d
  · cases hb : (is401 e && strTruthy rto)
    · simp [getTruelayerTransactions, h0, hb]
    · rcases h1 : w 1 with e1 | r
      · simp [getTruelayerTransactions, h0, hb, h1]
      · rcases h2 : w 2 with e2 | d2 <;>
          simp [getTruelayerTransactions, h0, hb, h1, h2]
  · simp [getTruelayerTransactions, h0]

/-- Claim C4, amended: pass-through of upstream status and body exists only
in the Plaid transactions handler — an upstream error with a truthy body is
relayed with the upstream status (500 when that status is 0) and that body,
any other upstream error becomes a generic 500 with a `message` field —
while the TrueLayer accounts and transactions handlers answer every
upstream failure with a 500 and a fixed body. -/
theorem upstream_passthrough_amended (tok a acct : String)
    (rto : Option String) (now : UTCTime) (nowMs : Int) (w : World)
    (e : HttpErr) (htok : tok ≠ "") (h0 : w 0 = .error e) :
    (∀ r : UpResponse, e.response = some r → jvalTruthy r.data = true →
      (getTransactions (some tok) nowMs w).status =
          (if r.status == 0 then 500 else r.status) ∧
        (getTransactions (some tok) nowMs w).body = r.data) ∧
    (∀ r : UpResponse, e.response = some r → jvalTruthy r.data = false →
      (getTransactions (some tok) nowMs w).status = 500 ∧
        (getTransactions (some tok) nowMs w).body =
          .obj [("error", .str "Failed to fetch transactions"),
            ("message", .str e.message)]) ∧
    (e.response = none →
      (getTransactions (some tok) nowMs w).status = 500 ∧
        (getTransactions (some tok) nowMs w).body =
          .obj [("error", .str "Failed to fetch transactions"),
            ("message", .str e.message)]) ∧
    (∀ w2 : World,
      ((getTruelayerAccounts a rto w2).status = 200 ∨
        ((getTruelayerAccounts a rto w2).status = 500 ∧
          (getTruelayerAccounts a rto w2).body = failAccountsBody)) ∧
      ((getTruelayerTransactions a rto acct now w2).status = 200 ∨
        ((getTruelayerTransactions a rto acct now w2).status = 500 ∧
          (getTruelayerTransactions a rto acct now w2).body =
            failTransactionsBody))) := by
  refine ⟨?_, ?_, ?_, fun w2 =>
    ⟨tlAccounts_outcome a rto w2, tlTransactions_outcome a acct rto now w2⟩⟩
  · intro r hr ht
    constructor <;> simp [getTransactions, h0, hr, ht, htok, strTruthy]
  · intro r hr ht
    constructor <;> simp [getTransactions, h0, hr, ht, htok, strTruthy]
  · intro hr
    constructor <;> simp [getTransactions, h0, hr, htok, strTruthy]

/-- Witness for the amended C4: a 429 upstream error with a JSON body is
passed through by the Plaid transactions handler with status 429 and that
body. -/
theorem upstream_passthrough_amended_witness :
    (getTransactions (some "tok") 1736900000000
        (fun _ => .error ⟨some ⟨429, .obj [("error_code",
          .str "RATE_LIMIT_EXCEEDED")]⟩, "Request failed"⟩)).status = 429 ∧
    (getTransactions (some "tok") 1736900000000
        (fun _ => .error ⟨some ⟨429, .obj [("error_code",
          .str "RATE_LIMIT_EXCEEDED")]⟩, "Request failed"⟩)).body =
      .obj [("error_code", .str "RATE_LIMIT_EXCEEDED")] := by
  have h := (upstream_passthrough_amended "tok" "A1" "acct-1" none
    ⟨2024, 0, 15, 10, 45, 30, 500⟩ 1736900000000
    (fun _ => .error ⟨some ⟨429, .obj [("error_code",
      .str "RATE_LIMIT_EXCEEDED")]⟩, "Request failed"⟩)
    ⟨some ⟨429, .obj [("error_code", .str "RATE_LIMIT_EXCEEDED")]⟩,
      "Request failed"⟩ (by decide) rfl).1
    ⟨429, .obj [("error_code", .str "RATE_LIMIT_EXCEEDED")]⟩ rfl rfl
  exact ⟨h.1.trans (by rfl), h.2⟩

/-! ### Round-trip of the `URLSearchParams` serialization (for C10) -/

/-- Hex digits produced by the encoder decode back to their value. -/
theorem hexVal_hexDigitChar : ∀ n, n < 16 → hexVal (hexDigitChar n) = n := by
  decide

/-- Hex digits produced by the encoder are recognised by the parser. -/
theorem isHexChar_hexDigitChar : ∀ n, n < 16 →
    isHexChar (hexDigitChar n) = true := by decide

/-- Hex digits are never the structural characters of a query string. -/
theorem hexDigitChar_ne : ∀ n, n < 16 →
    hexDigitChar n ≠ '&' ∧ hexDigitChar n ≠ '=' ∧ hexDigitChar n ≠ '+' ∧
      hexDigitChar n ≠ '%' := by decide

/-- An unreserved character is none of the structural characters. -/
theorem unreserved_ne (c : Char) (h : urlUnreserved c = true) :
    c ≠ '+' ∧ c ≠ '%' ∧ c ≠ '&' ∧ c ≠ '=' := by
  refine ⟨?_, ?_, ?_, ?_⟩ <;> (intro heq; subst heq; revert h; decide)

/-- Decoding steps over a character that is neither `+` nor `%`. -/
theorem decodeChars_cons_default (c : Char) (rest : List Char)
    (h1 : c ≠ '+') (h2 : c ≠ '%') :
    decodeChars (c :: rest) = c :: decodeChars rest := by
  rcases rest with _ | ⟨x, _ | ⟨y, rest2⟩⟩ <;> simp [decodeChars, h1, h2]

/-- Decoding a valid percent escape. -/
theorem decodeChars_percent (h l : Char) (rest : List Char)
    (hh : isHexChar h = true) (hl : isHexChar l = true) :
    decodeChars ('%' :: h :: l :: rest) =
      Char.ofNat (16 * hexVal h + hexVal l) :: decodeChars rest := by
  simp [decodeChars, hh, hl]

/-- Decoding inverts the encoding of one ASCII character, whatever
follows. -/
theorem decode_encodeChar (c : Char) (hc : c.toNat < 128)
    (rest : List Char) :
    decodeChars (encodeChar c ++ rest) = c :: decodeChars rest := by
  by_cases hu : urlUnreserved c = true
  · obtain ⟨h1, h2, -, -⟩ := unreserved_ne c hu
    simp only [encodeChar, hu, if_true, List.cons_append, List.nil_append]
    exact decodeChars_cons_default c rest h1 h2
  · by_cases hs : c = ' '
    · subst hs
      simp [encodeChar, decodeChars]
    · have hcond : (c == ' ') = false := by simp [hs]
      simp only [encodeChar, hu, if_false, Bool.false_eq_true, hcond,
        List.cons_append, List.nil_append]
      rw [decodeChars_percent _ _ _
        (isHexChar_hexDigitChar _ (by omega))
        (isHexChar_hexDigitChar _ (Nat.mod_lt _ (by decide)))]
      rw [hexVal_hexDigitChar _ (by omega),
        hexVal_hexDigitChar _ (Nat.mod_lt _ (by decide)),
        Nat.div_add_mod c.toNat 16, Char.ofNat_toNat]

/-- The encoding of an ASCII character contains neither `&` nor `=`. -/
theorem encodeChar_no_structural (c : Char) (hc : c.toNat < 128) :
    '&' ∉ encodeChar c ∧ '=' ∉ encodeChar c := by
  by_cases hu : urlUnreserved c = true
  · obtain ⟨-, -, h3, h4⟩ := unreserved_ne c hu
    simp [encodeChar, hu, h3, h4, Ne.symm h3, Ne.symm h4]
  · by_cases hs : c = ' '
    · subst hs; decide
    · have hcond : (c == ' ') = false := by simp [hs]
      obtain ⟨ha1, he1, -, -⟩ := hexDigitChar_ne (c.toNat / 16) (by omega)
      obtain ⟨ha2, he2, -, -⟩ := hexDigitChar_ne (c.toNat % 16)
        (Nat.mod_lt _ (by decide))
      simp [encodeChar, hu, hcond, Ne.symm ha1, Ne.symm he1, Ne.symm ha2,
        Ne.symm he2]

/-- Decoding inverts the encoding of an ASCII character list, whatever
follows. -/
theorem decode_encodeList (cs : List Char) (h : ∀ c ∈ cs, c.toNat < 128)
    (rest : List Char) :
    decodeChars (encodeList cs ++ rest) = cs ++ decodeChars rest := by
  induction cs with
  | nil => simp [encodeList]
  | cons c cs ih =>
    have hc : c.toNat < 128 := h c (by simp)
    have hcs : ∀ x ∈ cs, x.toNat < 128 := fun x hx => h x (by simp [hx])
    simp only [encodeList, List.append_assoc, List.cons_append]
    rw [decode_encodeChar c hc (encodeList cs ++ rest), ih hcs]

/-- The encoding of an ASCII character list contains neither `&` nor `=`. -/
theorem encodeList_no_structural (cs : List Char)
    (h : ∀ c ∈ cs, c.toNat < 128) :
    '&' ∉ encodeList cs ∧ '=' ∉ encodeList cs := by
  induction cs with
  | nil => simp [encodeList]
  | cons c cs ih =>
    have hc := encodeChar_no_structural c (h c (by simp))
    have ihc := ih (fun x hx => h x (by simp [hx]))
    simp only [encodeList, List.mem_append]
    exact ⟨fun hm => hm.elim hc.1 ihc.1, fun hm => hm.elim hc.2 ihc.2⟩

/-- `takeUntil` cuts exactly at the first separator. -/
theorem takeUntil_append (c : Char) (a b : List Char) (h : c ∉ a) :
    takeUntil c (a ++ c :: b) = (a, b) := by
  induction a with
  | nil => simp [takeUntil]
  | cons x xs ih =>
    have hx : x ≠ c := fun hxc => h (by simp [hxc])
    have hxs : c ∉ xs := fun hm => h (by simp [hm])
    simp [takeUntil, hx, ih hxs]

/-- A segment without the separator is a single split segment. -/
theorem splitOnChar_no_sep (sep : Char) (a : List Char) (h : sep ∉ a) :
    splitOnChar sep a = [a] := by
  induction a with
  | nil => rfl
  | cons x xs ih =>
    have hx : x ≠ sep := fun hxc => h (by simp [hxc])
    have hxs : sep ∉ xs := fun hm => h (by simp [hm])
    simp [splitOnChar, hx, ih hxs]

/-- Splitting cuts at the first separator. -/
theorem splitOnChar_append (sep : Char) (a b : List Char) (h : sep ∉ a) :
    splitOnChar sep (a ++ sep :: b) = a :: splitOnChar sep b := by
  induction a with
  | nil => simp [splitOnChar]
  | cons x xs ih =>
    have hx : x ≠ sep := fun hxc => h (by simp [hxc])
    have hxs : sep ∉ xs := fun hm => h (by simp [hm])
    have hne : splitOnChar sep b ≠ [] := by
      cases b with
      | nil => simp [splitOnChar]
      | cons y ys =>
        simp only [splitOnChar]
        split <;> simp
    simp [splitOnChar, hx, ih hxs]

/-- ASCII-string membership, unpacked. -/
theorem asciiStr_mem (s : String) (h : asciiStr s = true) :
    ∀ c ∈ s.data, c.toNat < 128 := by
  intro c hc
  have := List.all_eq_true.mp h c hc
  simpa [asciiChar] using this

/-- A `key=value` segment assembled by the serializer parses back to the
pair. -/
theorem parsePair_encoded (k v : String) (hk : asciiStr k = true)
    (hv : asciiStr v = true) :
    parsePair (encodeList k.data ++ '=' :: encodeList v.data) = (k, v) := by
  have hkm := asciiStr_mem k hk
  have hvm := asciiStr_mem v hv
  have hne : '=' ∉ encodeList k.data := (encodeList_no_structural _ hkm).2
  have ht := takeUntil_append '=' (encodeList k.data) (encodeList v.data) hne
  have hdk : decodeChars (encodeList k.data) = k.data := by
    have := decode_encodeList k.data hkm []
    simpa [decodeChars] using this
  have hdv : decodeChars (encodeList v.data) = v.data := by
    have := decode_encodeList v.data hvm []
    simpa [decodeChars] using this
  simp only [parsePair, ht, hdk, hdv]

/-- The character data of one serialized pair. -/
theorem serialized_pair_data (k v : String) :
    (encodeStr k ++ "=" ++ encodeStr v).data =
      encodeList k.data ++ '=' :: encodeList v.data := by
  simp [encodeStr, String.data_append]

/-- A serialized pair contains no `&`. -/
theorem serialized_pair_no_amp (k v : String) (hk : asciiStr k = true)
    (hv : asciiStr v = true) :
    '&' ∉ encodeList k.data ++ '=' :: encodeList v.data := by
  have h1 := (encodeList_no_structural k.data (asciiStr_mem k hk)).1
  have h2 := (encodeList_no_structural v.data (asciiStr_mem v hv)).1
  simp only [List.mem_append, List.mem_cons]
  rintro (hm | hm | hm)
  · exact h1 hm
  · exact absurd hm (by decide)
  · exact h2 hm

/-- Parsing inverts serialization for every non-empty list of ASCII
pairs. -/
theorem parse_serialize : ∀ pairs : List (String × String), pairs ≠ [] →
    (∀ p ∈ pairs, asciiStr p.1 = true ∧ asciiStr p.2 = true) →
    parseQuery (serializeQuery pairs).data = pairs
  | [], hne, _ => absurd rfl hne
  | [(k, v)], _, h => by
    have hk := (h (k, v) (by simp)).1
    have hv := (h (k, v) (by simp)).2
    have hdata := serialized_pair_data k v
    have hamp := serialized_pair_no_amp k v hk hv
    have hnil : encodeList k.data ++ '=' :: encodeList v.data ≠ [] := by
      intro hx
      have : '=' ∈ encodeList k.data ++ '=' :: encodeList v.data := by simp
      rw [hx] at this
      exact absurd this (by simp)
    obtain ⟨c, t, hct⟩ :=
      List.exists_cons_of_ne_nil hnil
    simp only [serializeQuery, hdata, hct, parseQuery, splitSegs]
    rw [← hct, splitOnChar_no_sep '&' _ hamp]
    simp [parsePair_encoded k v hk hv]
  | (k, v) :: p2 :: ps, _, h => by
    have hk := (h (k, v) (by simp)).1
    have hv := (h (k, v) (by simp)).2
    have ih := parse_serialize (p2 :: ps) (by simp)
      (fun p hp => h p (by simp [hp]))
    have hdata : (serializeQuery ((k, v) :: p2 :: ps)).data =
        (encodeList k.data ++ '=' :: encodeList v.data) ++
          '&' :: (serializeQuery (p2 :: ps)).data := by
      show (encodeStr k ++ "=" ++ encodeStr v ++ "&" ++
        serializeQuery (p2 :: ps)).data = _
      simp [encodeStr, String.data_append]
    have hamp := serialized_pair_no_amp k v hk hv
    have hrest : (serializeQuery (p2 :: ps)).data ≠ [] := by
      intro hx
      rw [hx] at ih
      simp [parseQuery] at ih
    obtain ⟨c, t, hct⟩ := List.exists_cons_of_ne_nil hrest
    have hsplit := splitOnChar_append '&'
      (encodeList k.data ++ '=' :: encodeList v.data)
      (serializeQuery (p2 :: ps)).data hamp
    have hq : parseQuery ((serializeQuery ((k, v) :: p2 :: ps)).data) =
        parsePair (encodeList k.data ++ '=' :: encodeList v.data) ::
          (splitOnChar '&' (serializeQuery (p2 :: ps)).data).map parsePair := by
      rw [hdata]
      have hne2 : (encodeList k.data ++ '=' :: encodeList v.data) ++
          '&' :: (serializeQuery (p2 :: ps)).data ≠ [] := by
        simp
      obtain ⟨c2, t2, hct2⟩ := List.exists_cons_of_ne_nil hne2
      simp only [hct2, parseQuery, splitSegs]
      rw [← hct2, hsplit]
      rfl
    rw [hq, parsePair_encoded k v hk hv]
    have hq2 : (splitOnChar '&' (serializeQuery (p2 :: ps)).data).map
        parsePair = p2 :: ps := by
      have : parseQuery (serializeQuery (p2 :: ps)).data = p2 :: ps := ih
      rw [hct] at this ⊢
      simpa [parseQuery, splitSegs] using this
    rw [hq2]

/-- Claim C10: for every successful `createTruelayerAuthLink` invocation
(with the ASCII configuration strings and the base-36 — hence ASCII — state
and nonce draws the code produces), the `state` and `nonce` fields of the
JSON response equal the values of the `state` and `nonce` query parameters
embedded in the returned `authUrl` — the parameter list recovered by parsing
the URL's query string — and that query always carries
`response_type=code`, the fixed scope
`info accounts balance cards transactions` and the fixed providers list
`uk-ob-all uk-oauth-all`. -/
theorem auth_link_params (production : Bool) (env : TLEnv)
    (state nonce : String)
    (hc : asciiStr env.clientId = true) (hr : asciiStr env.redirectUri = true)
    (hs : asciiStr state = true) (hn : asciiStr nonce = true) :
    (createTruelayerAuthLink production env state nonce).authUrl =
      truelayerAuthBase production ++ "/?" ++
        serializeQuery (authParams env state nonce) ∧
    parseQuery (serializeQuery (authParams env state nonce)).data =
      authParams env state nonce ∧
    List.lookup "state" (authParams env state nonce) =
      some (createTruelayerAuthLink production env state nonce).state ∧
    List.lookup "nonce" (authParams env state nonce) =
      some (createTruelayerAuthLink production env state nonce).nonce ∧
    List.lookup "response_type" (authParams env state nonce) = some "code" ∧
    List.lookup "scope" (authParams env state nonce) =
      some "info accounts balance cards transactions" ∧
    List.lookup "providers" (authParams env state nonce) =
      some "uk-ob-all uk-oauth-all" := by
  have hall : ∀ p ∈ authParams env state nonce,
      asciiStr p.1 = true ∧ asciiStr p.2 = true := by
    intro p hp
    simp only [authParams, List.mem_cons, List.not_mem_nil, or_false] at hp
    rcases hp with h | h | h | h | h | h | h
    · exact h ▸ ⟨(by decide : asciiStr "response_type" = true),
        (by decide : asciiStr "code" = true)⟩
    · exact h ▸ ⟨(by decide : asciiStr "client_id" = true), hc⟩
    · exact h ▸ ⟨(by decide : asciiStr "scope" = true),
        (by decide : asciiStr "info accounts balance cards transactions" = true)⟩
    · exact h ▸ ⟨(by decide : asciiStr "redirect_uri" = true), hr⟩
    · exact h ▸ ⟨(by decide : asciiStr "providers" = true),
        (by decide : asciiStr "uk-ob-all uk-oauth-all" = true)⟩
    · exact h ▸ ⟨(by decide : asciiStr "state" = true), hs⟩
    · exact h ▸ ⟨(by decide : asciiStr "nonce" = true), hn⟩
  exact ⟨rfl, parse_serialize _ (by simp [authParams]) hall,
    rfl, rfl, rfl, rfl, rfl⟩

/-- Witness for C10 at a concrete configuration, state and nonce. -/
theorem auth_link_params_witness :
    parseQuery (serializeQuery (authParams
        ⟨"client-123", "secret", "https://app.example.com/callback"⟩
        "abc123def" "xyz789")).data =
      authParams ⟨"client-123", "secret", "https://app.example.com/callback"⟩
        "abc123def" "xyz789" ∧
    List.lookup "state" (authParams
        ⟨"client-123", "secret", "https://app.example.com/callback"⟩
        "abc123def" "xyz789") =
      some (createTruelayerAuthLink false
        ⟨"client-123", "secret", "https://app.example.com/callback"⟩
        "abc123def" "xyz789").state := by
  have h := auth_link_params false
    ⟨"client-123", "secret", "https://app.example.com/callback"⟩
    "abc123def" "xyz789" (by decide) (by decide) (by decide) (by decide)
  exact ⟨h.2.1, h.2.2.1⟩

end SimpleBank
